import Mathlib

/-!
# Verification of `nes_py/nes_python_interface.py`

The repository is a ctypes binding over a native NES emulator shared
library (`libfceux.so`).  The Python file under `src/` contains the glue
code only; the native library itself is not part of `src/`.  Accordingly:

* the native entry points (`NESInterface`, `act`, `gameOver`,
  `getScreen`, `getRAM`, `cloneState`, `restoreState`, `encodeStateLen`,
  `encodeState`, `fillRGBfromPalette`, ...) are modelled from the spec as
  pure, deterministic Lean functions over an explicit emulator state;
* every method of the Python class `NESInterface` is translated from the
  source, line by line, on top of that native model.  Buffer allocation is
  made observable by threading a fresh-object-id counter, and each native
  call made by a method is recorded as a `NativeEvent` carrying the buffer
  size passed and the explicit size argument, when the source passes one.
-/

namespace NesPy

/-- Modelled from the spec: the full emulation state behind a native
`NESInterface` handle (`libfceux.so` is not in `src/`).  Per spec §3 it
holds the ROM image, system RAM, the palette-index frame buffer, the
legal-action table and a frame counter.  Byte lists use `Int` entries so
that the same array type carries `uint8` and `c_int` data. -/
structure EmuState where
  rom : List Int
  ram : List Int
  screen : List Int
  legal : List Int
  frame : Nat
  deriving Repr, DecidableEq

/-- Modelled from the spec: native `getScreenWidth(handle)`. -/
def natGetScreenWidth (_e : EmuState) : Nat := 256

/-- Modelled from the spec: native `getScreenHeight(handle)`. -/
def natGetScreenHeight (_e : EmuState) : Nat := 240

/-- Modelled from the spec: native `getRAMSize(handle)`. -/
def natGetRAMSize (e : EmuState) : Nat := e.ram.length

/-- Modelled from the spec: native `getNumLegalActions(handle)`. -/
def natGetNumLegalActions (e : EmuState) : Nat := e.legal.length

/-- Modelled from the spec: native constructor `NESInterface(romPath)` —
a deterministic function of the ROM bytes (spec §8: repeated runs with
the same ROM are byte-identical). -/
def natCreate (rom : List Int) : EmuState :=
  { rom := rom
  , ram := List.replicate 2048 0
  , screen := List.replicate (256 * 240) 0
  , legal := (List.range 6).map Int.ofNat
  , frame := 0 }

/-- Modelled from the spec: native `act(handle, action)` — one
deterministic emulation step, returning the new state and the reward.
The concrete update is a stand-in for the emulator core: it mutates RAM
and the frame buffer as a pure function of the current state and the
action, and advances the frame counter. -/
def natAct (e : EmuState) (a : Int) : EmuState × Int :=
  let v : Int := (a + Int.ofNat e.frame) % 256
  ({ e with
      ram := e.ram.map (fun b => (b + v) % 256)
      screen := e.screen.map (fun p => (p + 1) % 64)
      frame := e.frame + 1 },
   v)

/-- Modelled from the spec: native `gameOver(handle)`. -/
def natGameOver (e : EmuState) : Bool := decide (1000 ≤ e.frame)

/-- Modelled from the spec: an opaque snapshot handle returned by native
`cloneState` — an independently owned copy of the full emulation state
(spec §5: taking a snapshot never aliases live mutable state). -/
structure Snapshot where
  st : EmuState
  deriving Repr, DecidableEq

/-- Modelled from the spec: native `cloneState(handle)` — value copy. -/
def natCloneState (e : EmuState) : Snapshot := ⟨e⟩

/-- Modelled from the spec: native `restoreState(handle, state)` —
atomically overwrites all live state with the snapshot contents. -/
def natRestoreState (_e : EmuState) (s : Snapshot) : EmuState := s.st

/-- Modelled from the spec: the byte serialization of a snapshot written
by native `encodeState` (length-prefixed field concatenation, lossless). -/
def natEncodeBytes (s : Snapshot) : List Int :=
  Int.ofNat s.st.rom.length :: s.st.rom
    ++ Int.ofNat s.st.ram.length :: s.st.ram
    ++ Int.ofNat s.st.screen.length :: s.st.screen
    ++ Int.ofNat s.st.legal.length :: s.st.legal
    ++ [Int.ofNat s.st.frame]

/-- Modelled from the spec: native `encodeStateLen(state)`. -/
def natEncodeStateLen (s : Snapshot) : Nat := (natEncodeBytes s).length

/-- Modelled from the spec: the fixed palette used by native
`fillRGBfromPalette` — resolves one palette-index byte into an RGB
triple. -/
def paletteRGB (p : Int) : List Int :=
  [(p % 64) * 4, ((p / 8) % 8) * 32, (p % 8) * 32]

/-- Writing `src` into the front of buffer `dst`, C style: the first
`min src.length dst.length` cells are overwritten, the tail of `dst`
keeps its old contents (a shorter `src` leaves the rest untouched; a
longer `src` is truncated at the buffer end, the spec's "undefined
truncation" read as stopping at the buffer). -/
def fillFrom (dst src : List Int) : List Int :=
  src.take dst.length ++ dst.drop src.length

/-- A numpy array as the binding sees it: an object identity (so that
"returns the very same array object" is expressible), a shape, and flat
contents. -/
structure NpArray where
  id : Nat
  shape : List Int
  data : List Int
  deriving Repr, DecidableEq

/-- `ndarray.size`: the product of the shape. -/
def NpArray.size (a : NpArray) : Nat :=
  (a.shape.map Int.toNat).foldl (· * ·) 1

/-- Python `len(ndarray)`: the first dimension of the shape. -/
def NpArray.len (a : NpArray) : Nat :=
  ((a.shape.headD 0)).toNat

/-- One native call made by a wrapper method, as the source marshals it:
the size of the buffer handed over (when a buffer is passed) and the
explicit size argument (`c_int(...)`) when the source passes one —
`none` records that the call receives no size argument at all. -/
inductive NativeEvent where
  | getNumLegalActions
  | getLegalActionSet (bufSize : Nat) (sizeArg : Option Int)
  | getScreen (bufSize : Nat) (sizeArg : Option Int)
  | fillRGBfromPalette (srcSize : Nat) (dstSize : Nat) (sizeArg : Option Int)
  | getRAMSize
  | getRAM (bufSize : Nat) (sizeArg : Option Int)
  | encodeStateLen
  | encodeState (bufLen : Nat) (sizeArg : Option Int)
  deriving Repr, DecidableEq

/-- The explicit size argument carried by an event, if any. -/
def NativeEvent.sizeArgOf : NativeEvent → Option Int
  | .getLegalActionSet _ z => z
  | .getScreen _ z => z
  | .fillRGBfromPalette _ _ z => z
  | .getRAM _ z => z
  | .encodeState _ z => z
  | _ => none

/-- The size of the buffer passed in an event, if a buffer is passed. -/
def NativeEvent.bufSizeOf : NativeEvent → Option Nat
  | .getLegalActionSet n _ => some n
  | .getScreen n _ => some n
  | .getRAM n _ => some n
  | .encodeState n _ => some n
  | _ => none

/-- A Python value as returned by the wrapper methods that may fall off
the end of the function body (returning `None`). -/
inductive PyVal where
  | pynone
  | arr (a : NpArray)
  deriving Repr, DecidableEq

/-- Outcome of a Python call: a value, or an uncaught `ValueError`
(numpy's "truth value of an array is ambiguous"). -/
inductive PyResult (α : Type) where
  | ok (a : α)
  | valueError
  deriving Repr, DecidableEq

/-- The Python object `NESInterface`: the native handle `self.obj` plus
`self.width` / `self.height` captured in `__init__`. -/
structure NESInterface where
  obj : EmuState
  width : Nat
  height : Nat
  deriving Repr, DecidableEq

/-- `NESInterface.getScreenDims`: queries the native width and height
and returns `(width, height)`. -/
def NESInterface.getScreenDims (s : NESInterface) : Nat × Nat :=
  (natGetScreenWidth s.obj, natGetScreenHeight s.obj)

/-- `NESInterface.__init__`: constructs the native instance from the ROM
and stores `self.width, self.height = self.getScreenDims()`. -/
def NESInterface.init (rom : List Int) : NESInterface :=
  let obj := natCreate rom
  let dims := (natGetScreenWidth obj, natGetScreenHeight obj)
  { obj := obj, width := dims.1, height := dims.2 }

/-- `NESInterface.act`: `return nes_lib.act(self.obj, int(action))` —
the native step applied to the handle and the action (already an
integer, on which Python `int` is the identity); the mutated native
state and the `c_int` reward come back. -/
def NESInterface.act (s : NESInterface) (action : Int) : NESInterface × Int :=
  let r := natAct s.obj action
  ({ s with obj := r.1 }, r.2)

/-- `NESInterface.game_over`: `return nes_lib.gameOver(self.obj)` with
`restype = c_bool`. -/
def NESInterface.game_over (s : NESInterface) : Bool :=
  natGameOver s.obj

/-- `NESInterface.getLegalActionSet`: queries `getNumLegalActions`,
allocates `np.zeros(shape=(act_size,), dtype=c_int)` (a fresh object id),
and passes the handle and the buffer — and nothing else — to the native
`getLegalActionSet`.  Returns the filled array and the next fresh id,
with the trace of native calls. -/
def NESInterface.getLegalActionSet (s : NESInterface) (nid : Nat) :
    NpArray × Nat × List NativeEvent :=
  let act_size := natGetNumLegalActions s.obj
  let act : NpArray :=
    { id := nid, shape := [Int.ofNat act_size], data := List.replicate act_size 0 }
  let filled := { act with data := fillFrom act.data s.obj.legal }
  (filled, nid + 1, [.getNumLegalActions, .getLegalActionSet act.size none])

/-- `NESInterface.getMinimalActionSet`: `return self.getLegalActionSet()`. -/
def NESInterface.getMinimalActionSet (s : NESInterface) (nid : Nat) :
    NpArray × Nat × List NativeEvent :=
  s.getLegalActionSet nid

/-- `NESInterface.getScreen`: if no buffer is supplied, allocates
`np.zeros(self.width*self.height, dtype=np.uint8)`; then calls the
native `getScreen(self.obj, buffer, c_int(screen_data.size))`, which
fills the buffer in place with palette-index bytes, and returns that
same array. -/
def NESInterface.getScreen (s : NESInterface) (screen_data : Option NpArray)
    (nid : Nat) : NpArray × Nat × List NativeEvent :=
  let alloc :=
    match screen_data with
    | none =>
        ({ id := nid
         , shape := [Int.ofNat (s.width * s.height)]
         , data := List.replicate (s.width * s.height) 0 : NpArray }, nid + 1)
    | some a => (a, nid)
  let sd := alloc.1
  let filled := { sd with data := fillFrom sd.data (s.obj.screen.take sd.size) }
  (filled, alloc.2, [.getScreen sd.size (some (Int.ofNat sd.size))])

/-- `NESInterface.getScreenRBG`: if no buffer is supplied, allocates
`np.empty((self.height, self.width, 1), dtype=np.uint8)`; calls the
native `getScreen` into it with `c_int(screen_data.size)`; allocates
`rgb_screen = np.empty((self.height, self.width, 3), dtype=np.uint8)`;
then calls `fillRGBfromPalette(self.obj, screen_data, rgb_screen,
c_int(screen_data.size))`, which resolves each of the first `size`
palette-index bytes into an RGB triple, and returns `rgb_screen`. -/
def NESInterface.getScreenRBG (s : NESInterface) (screen_data : Option NpArray)
    (nid : Nat) : NpArray × Nat × List NativeEvent :=
  let alloc :=
    match screen_data with
    | none =>
        ({ id := nid
         , shape := [Int.ofNat s.height, Int.ofNat s.width, 1]
         , data := List.replicate (s.height * s.width * 1) 0 : NpArray }, nid + 1)
    | some a => (a, nid)
  let sd0 := alloc.1
  let sd := { sd0 with data := fillFrom sd0.data (s.obj.screen.take sd0.size) }
  let rgb0 : NpArray :=
    { id := alloc.2
    , shape := [Int.ofNat s.height, Int.ofNat s.width, 3]
    , data := List.replicate (s.height * s.width * 3) 0 }
  let rgb := { rgb0 with
    data := fillFrom rgb0.data (((sd.data.take sd.size).flatMap paletteRGB)) }
  (rgb, alloc.2 + 1,
    [.getScreen sd0.size (some (Int.ofNat sd0.size)),
     .fillRGBfromPalette sd.size rgb0.size (some (Int.ofNat sd.size))])

/-- `NESInterface.getRAMSize`: `return nes_lib.getRAMSize(self.obj)`. -/
def NESInterface.getRAMSize (s : NESInterface) : Nat :=
  natGetRAMSize s.obj

/-- `NESInterface.getRAM`: if no buffer is supplied, queries the native
`getRAMSize` and allocates `np.zeros(ram_size, dtype=np.uint8)`; then
calls the native `getRAM(self.obj, buffer)` — handle and buffer only, no
size argument — which fills the buffer in place, and returns that same
array. -/
def NESInterface.getRAM (s : NESInterface) (ram : Option NpArray) (nid : Nat) :
    NpArray × Nat × List NativeEvent :=
  let alloc :=
    match ram with
    | none =>
        let ram_size := natGetRAMSize s.obj
        (({ id := nid
          , shape := [Int.ofNat ram_size]
          , data := List.replicate ram_size 0 : NpArray }, nid + 1),
         [NativeEvent.getRAMSize])
    | some a => ((a, nid), [])
  let r := alloc.1.1
  let filled := { r with data := fillFrom r.data s.obj.ram }
  (filled, alloc.1.2, alloc.2 ++ [.getRAM r.size none])

/-- `NESInterface.cloneState`: `return nes_lib.cloneState(self.obj)`. -/
def NESInterface.cloneState (s : NESInterface) : Snapshot :=
  natCloneState s.obj

/-- `NESInterface.restoreState`: `nes_lib.restoreState(self.obj, state)`
— overwrites the native state behind the handle with the snapshot. -/
def NESInterface.restoreState (s : NESInterface) (state : Snapshot) :
    NESInterface :=
  { s with obj := natRestoreState s.obj state }

/-- `NESInterface.encodeStateLen`: `return nes_lib.encodeStateLen(state)`. -/
def NESInterface.encodeStateLen (_s : NESInterface) (state : Snapshot) : Nat :=
  natEncodeStateLen state

/-- `NESInterface.encodeState`, translated faithfully from the source:

```
def encodeState(self, state, buf=None):
    if buf == None:
        length = nes_lib.encodeStateLen(state)
        buf = np.zeros(length, dtype=np.uint8)
    nes_lib.encodeState(state, as_ctypes(buf), c_int(len(buf)))
```

`buf == None` is an elementwise numpy comparison when `buf` is an
ndarray: using it as an `if` condition raises `ValueError` unless the
array has exactly one element (numpy's ambiguous-truth-value rule), in
which case the all-`False` comparison is falsy and the branch is
skipped.  The body has no `return` statement, so on every non-raising
path the call returns `None`. -/
def NESInterface.encodeState (_s : NESInterface) (state : Snapshot)
    (buf : Option NpArray) (nid : Nat) :
    PyResult PyVal × Nat × List NativeEvent :=
  match buf with
  | none =>
      let length := natEncodeStateLen state
      let b : NpArray :=
        { id := nid, shape := [Int.ofNat length], data := List.replicate length 0 }
      (.ok .pynone, nid + 1,
        [.encodeStateLen, .encodeState b.len (some (Int.ofNat b.len))])
  | some a =>
      if a.size = 1 then
        (.ok .pynone, nid, [.encodeState a.len (some (Int.ofNat a.len))])
      else
        (.valueError, nid, [])

/-- Iterated `act`: feeds a list of actions to the instance. -/
def NESInterface.runActs (s : NESInterface) : List Int → NESInterface
  | [] => s
  | a :: as => ((s.act a).1).runActs as

/-- The per-step observable trace of a run: after each `act`, the
reward, the `getRAM` contents, and the `getScreen` frame buffer. -/
def NESInterface.runTrace (s : NESInterface) :
    List Int → List (Int × List Int × List Int)
  | [] => []
  | a :: as =>
      let step := s.act a
      (step.2, ((step.1).getRAM none 0).1.data,
        ((step.1).getScreen none 0).1.data) :: (step.1).runTrace as

/-- A small concrete ROM image (the four iNES magic bytes), used to
instantiate theorems at a concrete input. -/
def demoRom : List Int := [78, 69, 83, 26]

/-! ## Helper lemmas -/

theorem act_preserves_dims (s : NESInterface) (a : Int) :
    (s.act a).1.width = s.width ∧ (s.act a).1.height = s.height :=
  ⟨rfl, rfl⟩

theorem runActs_preserves_dims (acts : List Int) (s : NESInterface) :
    (s.runActs acts).width = s.width ∧ (s.runActs acts).height = s.height := by
  induction acts generalizing s with
  | nil => exact ⟨rfl, rfl⟩
  | cons a as ih => simpa [NESInterface.runActs] using ih (s.act a).1

theorem act_preserves_lengths (s : NESInterface) (a : Int) :
    (s.act a).1.obj.screen.length = s.obj.screen.length ∧
      (s.act a).1.obj.ram.length = s.obj.ram.length := by
  simp [NESInterface.act, natAct]

theorem runActs_preserves_lengths (acts : List Int) (s : NESInterface) :
    (s.runActs acts).obj.screen.length = s.obj.screen.length ∧
      (s.runActs acts).obj.ram.length = s.obj.ram.length := by
  induction acts generalizing s with
  | nil => exact ⟨rfl, rfl⟩
  | cons a as ih =>
      have h := act_preserves_lengths s a
      have h2 := ih (s.act a).1
      exact ⟨(h2.1).trans h.1, (h2.2).trans h.2⟩

theorem fillFrom_exact (dst src : List Int) (h : dst.length = src.length) :
    fillFrom dst src = src := by
  simp [fillFrom, h, List.take_of_length_le, List.drop_eq_nil_of_le, le_refl]

theorem flatMap_paletteRGB_length (l : List Int) :
    (l.flatMap paletteRGB).length = 3 * l.length := by
  induction l with
  | nil => simp
  | cons x xs ih =>
      simp only [List.flatMap_cons, List.length_append, ih, paletteRGB,
        List.length_cons, List.length_nil]
      ring

/-- An instance as actually produced by the binding: freshly constructed
by `__init__` on some ROM and stepped by some sequence of `act` calls. -/
def reachable (rom acts : List Int) : NESInterface :=
  (NESInterface.init rom).runActs acts

theorem reachable_dims (rom acts : List Int) :
    (reachable rom acts).width = 256 ∧ (reachable rom acts).height = 240 :=
  runActs_preserves_dims acts (NESInterface.init rom)

theorem reachable_screenDims_eq_fields (rom acts : List Int) :
    (reachable rom acts).getScreenDims.1 = (reachable rom acts).width ∧
      (reachable rom acts).getScreenDims.2 = (reachable rom acts).height := by
  constructor
  · rw [(reachable_dims rom acts).1]; rfl
  · rw [(reachable_dims rom acts).2]; rfl

theorem reachable_screen_length (rom acts : List Int) :
    (reachable rom acts).obj.screen.length =
      (reachable rom acts).height * (reachable rom acts).width := by
  rw [(reachable_dims rom acts).1, (reachable_dims rom acts).2]
  calc (reachable rom acts).obj.screen.length
      = (NESInterface.init rom).obj.screen.length :=
        (runActs_preserves_lengths acts (NESInterface.init rom)).1
    _ = 240 * 256 := by
        simp [NESInterface.init, natCreate, -List.reduceReplicate]

/-! ## Claim theorems -/

/-- C6: for every action index `a`, `act(a)` passes the instance handle
`self.obj` and the integer `a` to the native `act`, updates the handle
to the resulting native state, and returns the native call's integer
result (the reward); `game_over()` passes the handle to the native
`gameOver` and returns its boolean result. -/
theorem act_and_game_over_marshal (s : NESInterface) (a : Int) :
    (s.act a).2 = (natAct s.obj a).2 ∧
      (s.act a).1.obj = (natAct s.obj a).1 ∧
      (s.act a).1.width = s.width ∧ (s.act a).1.height = s.height ∧
      s.game_over = natGameOver s.obj :=
  ⟨rfl, rfl, rfl, rfl, rfl⟩

/-- C8: `getMinimalActionSet()` returns exactly the result of
`getLegalActionSet()` — the two methods agree on every instance, every
emulator state and every allocation counter. -/
theorem minimal_action_set_eq_legal (s : NESInterface) (nid : Nat) :
    s.getMinimalActionSet nid = s.getLegalActionSet nid := rfl

/-- C4: `restoreState(cloneState())` with no intervening operation is a
no-op on observable state: the subsequent `getRAM` contents, `getScreen`
frame buffer and `getLegalActionSet` result all equal those of the
original instance. -/
theorem restore_clone_is_noop (s : NESInterface) (nid : Nat) :
    (s.restoreState s.cloneState).getRAM none nid = s.getRAM none nid ∧
      (s.restoreState s.cloneState).getScreen none nid = s.getScreen none nid ∧
      (s.restoreState s.cloneState).getLegalActionSet nid =
        s.getLegalActionSet nid := by
  have h : s.restoreState s.cloneState = s := rfl
  rw [h]
  exact ⟨rfl, rfl, rfl⟩

/-- C5: a captured snapshot is independent of the live instance: after
`state = cloneState()`, any further sequence of `act` calls on the live
instance leaves a later `restoreState(state)` with the same observable
RAM and frame buffer as restoring it immediately would have. -/
theorem snapshot_independent_of_live (s : NESInterface) (acts : List Int)
    (nid : Nat) :
    ((s.runActs acts).restoreState s.cloneState).getRAM none nid =
        (s.restoreState s.cloneState).getRAM none nid ∧
      ((s.runActs acts).restoreState s.cloneState).getScreen none nid =
        (s.restoreState s.cloneState).getScreen none nid := by
  have hw := runActs_preserves_dims acts s
  constructor
  · simp [NESInterface.restoreState, natRestoreState, NESInterface.cloneState,
      natCloneState, NESInterface.getRAM]
  · simp [NESInterface.restoreState, natRestoreState, NESInterface.cloneState,
      natCloneState, NESInterface.getScreen, hw.1, hw.2]

/-- C3: execution is deterministic: two freshly constructed instances on
the same ROM, fed the same sequence of `act` calls, return identical
rewards and produce byte-identical `getRAM` contents and `getScreen`
frame buffers after every step. -/
theorem replay_deterministic (rom acts : List Int) (s1 s2 : NESInterface)
    (h1 : s1 = NESInterface.init rom) (h2 : s2 = NESInterface.init rom) :
    s1.runTrace acts = s2.runTrace acts := by
  subst h1; subst h2; rfl

/-- Witness for C3 at a concrete ROM and action sequence. -/
theorem replay_deterministic_witness :
    NESInterface.init demoRom = NESInterface.init demoRom ∧
      (NESInterface.init demoRom).runTrace [0, 1, 7] =
        (NESInterface.init demoRom).runTrace [0, 1, 7] :=
  ⟨rfl, replay_deterministic demoRom [0, 1, 7] _ _ rfl rfl⟩

/-- C9: when the caller supplies a buffer, `getScreen(screen_data)` and
`getRAM(ram)` fill that buffer in place and return the very same array
object (same identity, same shape), allocating no new array (the fresh-id
counter is unchanged); a fresh array is allocated only when the argument
is `None` (the counter advances and the result carries the fresh id). -/
theorem supplied_buffers_filled_in_place (s : NESInterface) (buf : NpArray)
    (nid : Nat) :
    ((s.getScreen (some buf) nid).1.id = buf.id ∧
        (s.getScreen (some buf) nid).1.shape = buf.shape ∧
        (s.getScreen (some buf) nid).1.data =
          fillFrom buf.data (s.obj.screen.take buf.size) ∧
        (s.getScreen (some buf) nid).2.1 = nid) ∧
      ((s.getRAM (some buf) nid).1.id = buf.id ∧
        (s.getRAM (some buf) nid).1.shape = buf.shape ∧
        (s.getRAM (some buf) nid).1.data = fillFrom buf.data s.obj.ram ∧
        (s.getRAM (some buf) nid).2.1 = nid) ∧
      ((s.getScreen none nid).1.id = nid ∧
        (s.getScreen none nid).2.1 = nid + 1) ∧
      ((s.getRAM none nid).1.id = nid ∧ (s.getRAM none nid).2.1 = nid + 1) :=
  ⟨⟨rfl, rfl, rfl, rfl⟩, ⟨rfl, rfl, rfl, rfl⟩, ⟨rfl, rfl⟩, ⟨rfl, rfl⟩⟩

/-- C1 (code bug): `encodeState` has no `return` statement, so even on
a snapshot freshly obtained from `cloneState` it returns `None` rather
than the byte serialization — `decodeState(encodeState(s))` can never
recover `s`.  Evaluated here at a concrete instance and snapshot. -/
theorem encodeState_of_clone_returns_none :
    ((NESInterface.init demoRom).encodeState
        ((NESInterface.init demoRom).cloneState) none 0).1 =
      PyResult.ok PyVal.pynone := rfl

/-- C2 counterexample: on a concrete fresh instance, the native `getRAM`
call receives no size argument at all — the trace of `getRAM()` cannot
be of the form `[getRAMSize, getRAM bufSize (some z)]` for any `z`, so
the size argument handed to the native call does not equal the allocated
size (there is none). -/
theorem getRAM_passes_no_size_argument :
    ¬ ∃ z : Int,
        ((NESInterface.init demoRom).getRAM none 0).2.2 =
          [NativeEvent.getRAMSize,
           NativeEvent.getRAM ((NESInterface.init demoRom).getRAMSize) (some z)] := by
  rintro ⟨z, h⟩
  have h0 : ((NESInterface.init demoRom).getRAM none 0).2.2 =
      [NativeEvent.getRAMSize,
       NativeEvent.getRAM ((NESInterface.init demoRom).getRAMSize) none] := by
    simp [NESInterface.getRAM, NESInterface.getRAMSize, NpArray.size]
  rw [h0] at h
  simp at h

/-- C2 amended: every buffer-producing method, called without a
caller-supplied buffer, allocates its buffer exactly per the
corresponding size query — `getScreen` allocates `width*height` bytes
(the `getScreenDims` values) and passes that size as the explicit size
argument of the native call; `getRAM` allocates exactly `getRAMSize`
bytes and `getLegalActionSet` exactly `getNumLegalActions` integer
slots, but their native calls receive only the handle and the buffer,
with no size argument. -/
theorem buffer_allocations_match_size_queries (rom acts : List Int) (nid : Nat) :
    (((reachable rom acts).getScreen none nid).1.size =
        (reachable rom acts).getScreenDims.1 *
          (reachable rom acts).getScreenDims.2 ∧
      ((reachable rom acts).getScreen none nid).2.2 =
        [NativeEvent.getScreen
          ((reachable rom acts).getScreenDims.1 *
            (reachable rom acts).getScreenDims.2)
          (some (Int.ofNat ((reachable rom acts).getScreenDims.1 *
            (reachable rom acts).getScreenDims.2)))]) ∧
    (((reachable rom acts).getRAM none nid).1.size =
        (reachable rom acts).getRAMSize ∧
      ((reachable rom acts).getRAM none nid).2.2 =
        [NativeEvent.getRAMSize,
         NativeEvent.getRAM ((reachable rom acts).getRAMSize) none]) ∧
    (((reachable rom acts).getLegalActionSet nid).1.size =
        natGetNumLegalActions (reachable rom acts).obj ∧
      ((reachable rom acts).getLegalActionSet nid).2.2 =
        [NativeEvent.getNumLegalActions,
         NativeEvent.getLegalActionSet
           (natGetNumLegalActions (reachable rom acts).obj) none]) := by
  have hd := reachable_screenDims_eq_fields rom acts
  rw [hd.1, hd.2]
  have hcast : ∀ m n : Nat, ((m : Int) * (n : Int)).toNat = m * n := by
    intro m n
    rw [← Nat.cast_mul, Int.toNat_natCast]
  have hpos : ∀ m n : Nat, (0 : Int) ≤ (m : Int) * (n : Int) := by
    intro m n
    exact mul_nonneg (Int.natCast_nonneg m) (Int.natCast_nonneg n)
  refine ⟨⟨?_, ?_⟩, ⟨?_, ?_⟩, ⟨?_, ?_⟩⟩ <;>
    simp [NESInterface.getScreen, NESInterface.getRAM,
      NESInterface.getLegalActionSet, NESInterface.getRAMSize,
      NpArray.size, -List.reduceReplicate, hcast, hpos]

/-- C7: `getScreenRBG()` first fetches the palette-index screen via the
native `getScreen`, then resolves it through the palette via the native
`fillRGBfromPalette`, and returns an array of shape
`(height, width, 3)` whose flat contents are the RGB triples of the
screen bytes, where `height` and `width` are the construction-time
`getScreenDims` values carried by the instance. -/
theorem getScreenRBG_resolves_palette (rom acts : List Int) (nid : Nat) :
    ((reachable rom acts).getScreenRBG none nid).1.shape =
        [Int.ofNat (reachable rom acts).height,
         Int.ofNat (reachable rom acts).width, 3] ∧
      ((reachable rom acts).getScreenRBG none nid).1.data =
        (reachable rom acts).obj.screen.flatMap paletteRGB ∧
      ((reachable rom acts).getScreenRBG none nid).2.2 =
        [NativeEvent.getScreen
            ((reachable rom acts).height * (reachable rom acts).width)
            (some (Int.ofNat ((reachable rom acts).height *
              (reachable rom acts).width))),
         NativeEvent.fillRGBfromPalette
            ((reachable rom acts).height * (reachable rom acts).width)
            ((reachable rom acts).height * (reachable rom acts).width * 3)
            (some (Int.ofNat ((reachable rom acts).height *
              (reachable rom acts).width)))] := by
  have hlen := reachable_screen_length rom acts
  have htake : (reachable rom acts).obj.screen.take
      ((reachable rom acts).height * (reachable rom acts).width) =
      (reachable rom acts).obj.screen :=
    List.take_of_length_le (le_of_eq hlen)
  have hfill : fillFrom
      (List.replicate ((reachable rom acts).height * (reachable rom acts).width)
        (0 : Int))
      ((reachable rom acts).obj.screen) = (reachable rom acts).obj.screen :=
    fillFrom_exact _ _ (by simp [hlen])
  have hfill2 : fillFrom
      (List.replicate
        ((reachable rom acts).height * (reachable rom acts).width * 3) (0 : Int))
      (((reachable rom acts).obj.screen).flatMap paletteRGB) =
      ((reachable rom acts).obj.screen).flatMap paletteRGB :=
    fillFrom_exact _ _ (by
      rw [List.length_replicate, flatMap_paletteRGB_length, hlen]; ring)
  refine ⟨?_, ?_, ?_⟩ <;>
    simp [NESInterface.getScreenRBG, NpArray.size, htake, hfill, hfill2,
      -List.reduceReplicate]

/-- C10: `encodeState` never returns the encoded bytes — every
non-raising call returns `None` — and a caller-supplied numpy buffer of
two or more elements makes the `buf == None` guard raise `ValueError`
before any native call is made (the returned trace is empty). -/
theorem encodeState_returns_none_and_guard_raises (s : NESInterface)
    (state : Snapshot) (nid : Nat) (a : NpArray) (h2 : 2 ≤ a.size) :
    (∀ buf r, s.encodeState state buf nid = r →
        ∀ v, r.1 = PyResult.ok v → v = PyVal.pynone) ∧
      s.encodeState state (some a) nid = (PyResult.valueError, nid, []) := by
  constructor
  · rintro buf r rfl v hv
    cases buf with
    | none =>
        simp [NESInterface.encodeState] at hv
        exact hv.symm
    | some b =>
        by_cases hb : b.size = 1
        · simp [NESInterface.encodeState, hb] at hv
          exact hv.symm
        · simp [NESInterface.encodeState, hb] at hv
  · have hne : a.size ≠ 1 := by omega
    simp [NESInterface.encodeState, hne]

/-- Witness for C10 at a concrete instance, snapshot and two-element
buffer. -/
theorem encodeState_returns_none_and_guard_raises_witness :
    2 ≤ (NpArray.mk 5 [2] [0, 0]).size ∧
      ((∀ buf r, (NESInterface.init demoRom).encodeState
            ((NESInterface.init demoRom).cloneState) buf 0 = r →
          ∀ v, r.1 = PyResult.ok v → v = PyVal.pynone) ∧
        (NESInterface.init demoRom).encodeState
            ((NESInterface.init demoRom).cloneState)
            (some (NpArray.mk 5 [2] [0, 0])) 0 =
          (PyResult.valueError, 0, [])) :=
  ⟨by decide,
   encodeState_returns_none_and_guard_raises _ _ 0 _ (by decide)⟩

end NesPy
